import Mathlib

/-!
Shallow embedding of the classification/enrichment core of the
reddit_crawler repository (src/nlp/enrichment.py, src/config.py, src/db.py)
together with theorems checking the natural-language specification
against it.

Python strings are modelled as `List Char`; Python's `str.lower` as a
character-wise ASCII lowering (all configured phrases and all inputs of
interest are ASCII); Python's substring test `p in text` as
`List.isInfixOf`; Python floats as exact rationals `ℚ` (for the urgency
formula the float rounding of `16 * 0.3` never changes any 3-decimal
result for match counts 0..16, so the rational model agrees with the
float computation on every reachable value).
-/

abbrev Str := List Char

/-- Character-wise ASCII lowercasing, modelling Python `str.lower()` on
the ASCII texts this program works with. -/
def pyLower (s : Str) : Str := s.map Char.toLower

/-- Apostrophe character, used to spell configured phrases containing one. -/
def apos : Char := Char.ofNat 39

/-- Substring containment: `inText pat text` embeds Python's
`pat in text` for strings (true when `pat` occurs contiguously in
`text`). -/
def inText (pat : Str) : Str → Bool
  | [] => pat.isEmpty
  | c :: rest => pat.isPrefixOf (c :: rest) || inText pat rest

namespace Config

/-- TECH_KEYWORDS from src/config.py (technology name → trigger phrases). -/
def TECH_KEYWORDS : List (Str × List Str) :=
  [ ("Python".data, ["python".data])
  , ("JavaScript".data, ["javascript".data, "js".data])
  , ("TypeScript".data, ["typescript".data, "ts".data])
  , ("Java".data, ["java".data])
  , ("C++".data, ["c++".data, "cpp".data])
  , ("C#".data, ["c#".data, "csharp".data, ".net".data])
  , ("Go".data, ["golang".data])
  , ("Rust".data, ["rust".data])
  , ("Ruby".data, ["ruby".data, "rails".data, "ruby on rails".data])
  , ("PHP".data, ["php".data])
  , ("Swift".data, ["swift".data])
  , ("Kotlin".data, ["kotlin".data])
  , ("Scala".data, ["scala".data])
  , ("R".data, ["rstudio".data, "r programming".data, "r language".data])
  , ("SQL".data, ["sql".data, "mysql".data, "postgresql".data, "postgres".data, "sqlite".data])
  , ("NoSQL".data, ["nosql".data, "mongodb".data, "dynamodb".data, "cassandra".data, "couchdb".data])
  , ("React".data, ["react".data, "reactjs".data, "react.js".data])
  , ("Angular".data, ["angular".data])
  , ("Vue.js".data, ["vue".data, "vuejs".data, "vue.js".data])
  , ("Node.js".data, ["node".data, "nodejs".data, "node.js".data])
  , ("Django".data, ["django".data])
  , ("Flask".data, ["flask".data])
  , ("FastAPI".data, ["fastapi".data])
  , ("Spring".data, ["spring".data, "spring boot".data])
  , ("Docker".data, ["docker".data])
  , ("Kubernetes".data, ["kubernetes".data, "k8s".data])
  , ("AWS".data, ["aws".data, "amazon web services".data, "ec2".data, "s3".data, "lambda".data])
  , ("Azure".data, ["azure".data])
  , ("GCP".data, ["gcp".data, "google cloud".data])
  , ("Terraform".data, ["terraform".data])
  , ("Jenkins".data, ["jenkins".data])
  , ("Git".data, ["git".data, "github".data, "gitlab".data])
  , ("Linux".data, ["linux".data, "ubuntu".data, "centos".data])
  , ("TensorFlow".data, ["tensorflow".data])
  , ("PyTorch".data, ["pytorch".data])
  , ("Pandas".data, ["pandas".data])
  , ("Spark".data, ["spark".data, "pyspark".data])
  , ("Airflow".data, ["airflow".data])
  , ("Kafka".data, ["kafka".data])
  , ("Redis".data, ["redis".data])
  , ("Elasticsearch".data, ["elasticsearch".data, "elastic".data])
  , ("GraphQL".data, ["graphql".data])
  , ("REST".data, ["rest api".data, "restful".data])
  , ("CI/CD".data, ["ci/cd".data, "cicd".data, "continuous integration".data])
  , ("Tableau".data, ["tableau".data])
  , ("Power BI".data, ["power bi".data, "powerbi".data])
  , ("Figma".data, ["figma".data])
  , ("Jira".data, ["jira".data])
  , ("Agile".data, ["agile".data, "scrum".data]) ]

/-- JOB_TYPE_PATTERNS from src/config.py. -/
def JOB_TYPE_PATTERNS : List (Str × List Str) :=
  [ ("Full-time".data, ["full-time".data, "full time".data, "ft".data, "permanent".data, "salaried".data])
  , ("Contract".data, ["contract".data, "contractor".data, "c2c".data, "w2".data, "corp-to-corp".data])
  , ("Freelance".data, ["freelance".data, "freelancer".data, "gig".data, "project-based".data, "per project".data])
  , ("Internship".data, ["intern".data, "internship".data, "co-op".data, "coop".data, "trainee".data])
  , ("Part-time".data, ["part-time".data, "part time".data, "pt".data]) ]

/-- SENIORITY_PATTERNS from src/config.py. -/
def SENIORITY_PATTERNS : List (Str × List Str) :=
  [ ("Junior".data, ["junior".data, "jr".data, "entry level".data, "entry-level".data, "associate".data, "graduate".data, "new grad".data])
  , ("Mid".data, ["mid-level".data, "mid level".data, "intermediate".data, "2-5 years".data, "3+ years".data])
  , ("Senior".data, ["senior".data, "sr".data, "experienced".data, "5+ years".data, "7+ years".data, "lead developer".data])
  , ("Lead".data, ["lead".data, "principal".data, "staff".data, "architect".data, "head of".data, "director".data, "vp".data, "manager".data]) ]

/-- DOMAIN_PATTERNS from src/config.py. -/
def DOMAIN_PATTERNS : List (Str × List Str) :=
  [ ("Data".data, ["data engineer".data, "data scientist".data, "data analyst".data, "machine learning".data, "ml".data, "ai".data, "analytics".data, "bi ".data, "business intelligence".data, "etl".data, "data pipeline".data])
  , ("Software".data, ["software engineer".data, "software developer".data, "backend".data, "frontend".data, "full stack".data, "fullstack".data, "web developer".data, "mobile developer".data, "swe".data, "sde".data])
  , ("DevOps".data, ["devops".data, "sre".data, "site reliability".data, "infrastructure".data, "platform engineer".data, "cloud engineer".data])
  , ("Design".data, ["designer".data, "ux".data, "ui".data, "product design".data, "graphic design".data, "figma".data])
  , ("Marketing".data, ["marketing".data, "seo".data, "content".data, "growth".data, "social media".data, "digital marketing".data])
  , ("Product".data, ["product manager".data, "product owner".data, "pm".data, "program manager".data])
  , ("Security".data, ["security".data, "cybersecurity".data, "infosec".data, "penetration".data, "soc analyst".data])
  , ("QA".data, ["qa".data, "quality assurance".data, "test engineer".data, "testing".data, "automation test".data]) ]

/-- WORK_MODE_PATTERNS from src/config.py. -/
def WORK_MODE_PATTERNS : List (Str × List Str) :=
  [ ("Remote".data, ["remote".data, "work from home".data, "wfh".data, "anywhere".data, "distributed".data, "telecommute".data])
  , ("Hybrid".data, ["hybrid".data, "flex".data, "partially remote".data, "2 days".data, "3 days in office".data])
  , ("On-site".data, ["on-site".data, "onsite".data, "in-office".data, "in office".data, "on site".data, "relocate".data]) ]

/-- JOB_POSITIVE_PATTERNS from src/config.py ("we're looking" is spelled
with an explicit apostrophe character). -/
def JOB_POSITIVE_PATTERNS : List Str :=
  [ "hiring".data, "job opening".data
  , "we".data ++ apos :: "re looking".data
  , "we are looking".data, "job opportunity".data
  , "apply".data, "application".data, "position".data, "role".data, "vacancy".data, "seeking".data
  , "wanted".data, "join our team".data, "open position".data, "job posting".data
  , "[hiring]".data, "[for hire]".data, "looking to hire".data, "need a developer".data
  , "salary".data, "compensation".data, "benefits".data, "equity".data ]

/-- JOB_NEGATIVE_PATTERNS from src/config.py. -/
def JOB_NEGATIVE_PATTERNS : List Str :=
  [ "looking for work".data, "need a job".data, "hire me".data, "for hire".data
  , "resume review".data, "career advice".data, "interview tips".data
  , "should i".data, "is it worth".data, "what should".data, "how do i".data
  , "rant".data, "vent".data, "frustrated".data, "quit my job".data
  , "meme".data, "joke".data, "funny".data ]

/-- URGENCY_PATTERNS from src/config.py. -/
def URGENCY_PATTERNS : List Str :=
  [ "asap".data, "immediately".data, "urgent".data, "start now".data, "right away".data
  , "start date".data, "start tomorrow".data, "this week".data, "today".data
  , "need someone".data, "quickly".data, "fast".data, "rush".data
  , "deadline".data, "time-sensitive".data, "limited time".data ]

end Config

open Config

namespace Enrichment

/-- Number of keywords of one category that occur somewhere in the
(already lowercased) text; embeds the comprehension
`sum(1 for kw in keywords if kw in text_lower)` of `_match_patterns`. -/
def hitCount (text_lower : Str) (keywords : List Str) : Nat :=
  keywords.countP (fun kw => inText kw text_lower)

/-- Python's `max(scores, key=scores.get)` over a nonempty score list in
dict insertion order: the running best is replaced only by a strictly
greater score, so the first maximal element is kept. -/
def pyMaxBySnd (s : Str × Nat) (rest : List (Str × Nat)) : Str × Nat :=
  rest.foldl (fun best p => if best.2 < p.2 then p else best) s

/-- Embeds `_match_patterns` of src/nlp/enrichment.py: score every
category by its keyword hit count over the lowercased text, drop
zero-score categories, and return the best one. -/
def matchPatterns (text : Str) (patterns : List (Str × List Str)) : Option Str :=
  let text_lower := pyLower text
  let scores := (patterns.map (fun p => (p.1, hitCount text_lower p.2))).filter
    (fun p => 0 < p.2)
  match scores with
  | [] => none
  | s :: rest => some (pyMaxBySnd s rest).1

/-- Embeds `classify_is_job` of src/nlp/enrichment.py: presence count of
positive and negative signal phrases over the lowercased
`title ++ " " ++ body`, plus a +3 title boost on each side, decided by a
strict comparison. -/
def classify_is_job (title body : Str) : Bool :=
  let text := pyLower (title ++ ' ' :: body)
  let positive_score := JOB_POSITIVE_PATTERNS.countP (fun p => inText p text)
  let negative_score := JOB_NEGATIVE_PATTERNS.countP (fun p => inText p text)
  let title_lower := pyLower title
  let positive_score :=
    if ["[hiring]".data, "hiring".data, "job opening".data, "position".data].any
        (fun p => inText p title_lower) then positive_score + 3 else positive_score
  let negative_score :=
    if ["[for hire]".data, "hire me".data, "looking for work".data].any
        (fun p => inText p title_lower) then negative_score + 3 else negative_score
  decide (negative_score < positive_score)

/-- Embeds `classify_job_type` of src/nlp/enrichment.py. -/
def classify_job_type (title body : Str) : Option Str :=
  matchPatterns (title ++ ' ' :: body) JOB_TYPE_PATTERNS

/-- Embeds `classify_seniority` of src/nlp/enrichment.py. -/
def classify_seniority (title body : Str) : Option Str :=
  matchPatterns (title ++ ' ' :: body) SENIORITY_PATTERNS

/-- Embeds `classify_domain` of src/nlp/enrichment.py. -/
def classify_domain (title body : Str) : Option Str :=
  matchPatterns (title ++ ' ' :: body) DOMAIN_PATTERNS

/-- Embeds `classify_work_mode` of src/nlp/enrichment.py. -/
def classify_work_mode (title body : Str) : Option Str :=
  matchPatterns (title ++ ' ' :: body) WORK_MODE_PATTERNS

/-- Embeds `extract_tech_stack` of src/nlp/enrichment.py: lowercase the
space-padded concatenation, keep every catalog technology one of whose
trigger phrases occurs, and return `sorted(set(found))` — here the
insertion sort of the deduplicated list under the lexicographic order
on `List Char` (Python compares strings by code point). -/
def extract_tech_stack (title body : Str) : List Str :=
  let text := pyLower (' ' :: title ++ ' ' :: body ++ [' '])
  let found := (TECH_KEYWORDS.filter (fun p => p.2.any (fun kw => inText kw text))).map
    (fun p => p.1)
  List.insertionSort (· ≤ ·) found.dedup

/-- Python's built-in `min` on two numbers (used on exact rationals). -/
def minQ (a b : ℚ) : ℚ := if a ≤ b then a else b

/-- Python's built-in `max` on two numbers (used on exact rationals). -/
def maxQ (a b : ℚ) : ℚ := if a ≤ b then b else a

/-- Round-half-to-even on rationals, modelling Python's `round` to an
integer number of units. -/
def roundHalfEven (q : ℚ) : ℤ :=
  let f : ℤ := ⌊q⌋
  if q - f < 1/2 then f
  else if (1:ℚ)/2 < q - f then f + 1
  else if f % 2 = 0 then f else f + 1

/-- Python's `round(q, 3)` on the exact rational model. -/
def round3 (q : ℚ) : ℚ := (roundHalfEven (q * 1000) : ℚ) / 1000

/-- Embeds `compute_sentiment` of src/nlp/enrichment.py.  The TextBlob
polarity function is external to the repository, so it is a parameter
`polarity`; the code joins title and body with ". " and rounds the
polarity to 3 decimals. -/
def compute_sentiment (polarity : Str → ℚ) (title body : Str) : ℚ :=
  round3 (polarity (title ++ '.' :: ' ' :: body))

/-- Embeds `compute_urgency` of src/nlp/enrichment.py:
`min(matches / max(len(URGENCY_PATTERNS) * 0.3, 1), 1.0)` rounded to 3
decimals, where `matches` counts the configured urgency phrases present
in the lowercased `title ++ " " ++ body`. -/
def compute_urgency (title body : Str) : ℚ :=
  let text := pyLower (title ++ ' ' :: body)
  let matchCount : ℕ := URGENCY_PATTERNS.countP (fun p => inText p text)
  round3 (minQ ((matchCount : ℚ) / maxQ ((URGENCY_PATTERNS.length : ℚ) * (3/10)) 1) 1)

/-- Classification record assembled by `enrich_post` of
src/nlp/enrichment.py. -/
structure Classification where
  post_id : Str
  is_job : Bool
  job_type : Option Str
  seniority : Option Str
  domain : Option Str
  work_mode : Option Str
  sentiment_score : ℚ
  urgency_score : ℚ
  tech_stack : List Str
deriving DecidableEq, Repr

/-- Input record of `enrich_post`: a Python dict that may or may not have
each of the three keys the function reads (`post.get("title", "")`,
`post.get("body", "")`, `post["post_id"]`). -/
structure PostIn where
  post_id : Option Str
  title : Option Str
  body : Option Str
deriving DecidableEq, Repr

/-- Embeds `enrich_post` of src/nlp/enrichment.py.  `title` and `body`
default to the empty string when absent; a missing `post_id` key raises
`KeyError("post_id")`, modelled as an error naming the missing field.
The taxonomy fields, urgency and tech stack are computed only when the
job gate accepts; sentiment is computed unconditionally. -/
def enrich_post (polarity : Str → ℚ) (post : PostIn) : Except Str Classification :=
  let title := post.title.getD []
  let body := post.body.getD []
  match post.post_id with
  | none => Except.error "post_id".data
  | some pid =>
    let is_job := classify_is_job title body
    Except.ok
      { post_id := pid
      , is_job := is_job
      , job_type := if is_job then classify_job_type title body else none
      , seniority := if is_job then classify_seniority title body else none
      , domain := if is_job then classify_domain title body else none
      , work_mode := if is_job then classify_work_mode title body else none
      , sentiment_score := compute_sentiment polarity title body
      , urgency_score := if is_job then compute_urgency title body else 0
      , tech_stack := if is_job then extract_tech_stack title body else [] }

end Enrichment

namespace Db

/-- Row of the `posts` table, with the nine columns written by
`insert_post` of src/db.py. -/
structure PostRow where
  post_id : Str
  title : Str
  body : Str
  author : Str
  subreddit : Str
  score : ℤ
  num_comments : ℤ
  created_utc : Str
  post_url : Str
deriving DecidableEq, Repr

/-- Row of the `job_classifications` table, with the eight columns
written by `insert_classification` of src/db.py. -/
structure ClassificationRow where
  post_id : Str
  is_job : Bool
  job_type : Option Str
  seniority : Option Str
  domain : Option Str
  work_mode : Option Str
  sentiment_score : ℚ
  urgency_score : ℚ
deriving DecidableEq, Repr

/-- Modelled from the spec: the `posts` table semantics behind
`insert_post` of src/db.py.  The schema file (data/schema.sql, with
`post_id` as primary key) is not under src/; per the spec, insert is
skipped when the `post_id` already exists (`INSERT ... ON CONFLICT
(post_id) DO NOTHING` / `INSERT OR IGNORE`), the existing row is left
unchanged, and the function returns whether a row was inserted
(`cursor.rowcount > 0`). -/
def insert_post (tbl : List PostRow) (p : PostRow) : List PostRow × Bool :=
  if p.post_id ∈ tbl.map PostRow.post_id then (tbl, false) else (tbl ++ [p], true)

/-- Modelled from the spec: the `job_classifications` table semantics
behind `insert_classification` of src/db.py.  The schema file (with
`post_id` unique) is not under src/; per the spec and the SQL text
(`INSERT ... ON CONFLICT (post_id) DO UPDATE SET` every column /
`INSERT OR REPLACE`), the row with a matching `post_id` is fully
replaced by the new one, and a new row is appended when no row
matches. -/
def insert_classification : List ClassificationRow → ClassificationRow → List ClassificationRow
  | [], c => [c]
  | r :: rs, c =>
    if r.post_id = c.post_id then c :: rs else r :: insert_classification rs c

/-- Modelled from the spec: the `tech_stack` table semantics behind
`insert_tech_stack` of src/db.py.  The schema file (with the pair
`(post_id, technology)` unique) is not under src/; per the spec and the
SQL text (`INSERT ... ON CONFLICT DO NOTHING` / `INSERT OR IGNORE` per
technology, in list order), each pair is inserted unless it already
exists, and nothing is ever removed. -/
def insert_tech_stack (tbl : List (Str × Str)) (post_id : Str) (technologies : List Str) :
    List (Str × Str) :=
  technologies.foldl
    (fun t tech => if (post_id, tech) ∈ t then t else t ++ [(post_id, tech)]) tbl

end Db

namespace Spec

open Enrichment

/-- Number of start positions at which `pat` occurs in `s` (counts every
occurrence, including overlapping ones). -/
def countOcc (pat s : Str) : Nat :=
  (List.range (s.length + 1)).countP (fun i => pat.isPrefixOf (s.drop i))

/-- Job gate as claimed word for word: every occurrence of every
configured phrase contributes 1 to its side's score (per-occurrence
counting), then the +3 title boosts, then a strict comparison. -/
def claimIsJobOcc (title body : Str) : Bool :=
  let text := pyLower (title ++ ' ' :: body)
  let pos := (JOB_POSITIVE_PATTERNS.map (fun p => countOcc p text)).sum
  let neg := (JOB_NEGATIVE_PATTERNS.map (fun p => countOcc p text)).sum
  let title_lower := pyLower title
  let pos :=
    if ["[hiring]".data, "hiring".data, "job opening".data, "position".data].any
        (fun p => inText p title_lower) then pos + 3 else pos
  let neg :=
    if ["[for hire]".data, "hire me".data, "looking for work".data].any
        (fun p => inText p title_lower) then neg + 3 else neg
  decide (neg < pos)

/-- Job gate as amended: each configured phrase that is present
contributes exactly 1 to its side's score, regardless of how many times
it occurs; boosts and decision rule unchanged. -/
def claimIsJobPresence (title body : Str) : Bool :=
  let text := pyLower (title ++ ' ' :: body)
  let pos := (JOB_POSITIVE_PATTERNS.filter (fun p => inText p text)).length
  let neg := (JOB_NEGATIVE_PATTERNS.filter (fun p => inText p text)).length
  let title_lower := pyLower title
  let pos :=
    if ["[hiring]".data, "hiring".data, "job opening".data, "position".data].any
        (fun p => inText p title_lower) then pos + 3 else pos
  let neg :=
    if ["[for hire]".data, "hire me".data, "looking for work".data].any
        (fun p => inText p title_lower) then neg + 3 else neg
  decide (neg < pos)

/-- Urgency scorer as claimed:
`round(min(m / max(0.3 * N, 1), 1.0), 3)` with `N` the size of the
urgency vocabulary and `m` the number of distinct configured phrases
present in the lowercased concatenation. -/
def claimUrgency (title body : Str) : ℚ :=
  let text := pyLower (title ++ ' ' :: body)
  let m : ℕ := (URGENCY_PATTERNS.filter (fun p => inText p text)).length
  let n : ℕ := URGENCY_PATTERNS.length
  round3 (minQ ((m : ℚ) / maxQ ((3/10) * (n : ℚ)) 1) 1)

/-- First category of the scored list whose score equals `m` (claim
C10's tie-break: first-declared entry wins). -/
def firstWithVal (m : Nat) : List (Str × Nat) → Option Str
  | [] => none
  | p :: ps => if p.2 = m then some p.1 else firstWithVal m ps

/-- Category matcher as claimed in C10: among the categories with a
positive hit count, return the first-declared one whose hit count
equals the maximum. -/
def firstMaxCategory (text : Str) (patterns : List (Str × List Str)) : Option Str :=
  let text_lower := pyLower text
  let scored := (patterns.map (fun p => (p.1, hitCount text_lower p.2))).filter
    (fun p => 0 < p.2)
  firstWithVal ((scored.map (fun p => p.2)).foldl Nat.max 0) scored

end Spec

namespace Examples

open Enrichment

/-- Constant polarity oracle used to instantiate the external sentiment
function in concrete checks. -/
def zeroPolarity : Str → ℚ := fun _ => 0

/-- Non-job post taken from the repository's tests. -/
def nonJobPost : PostIn :=
  { post_id := some "test456".data
  , title := some "Should I learn React or Angular?".data
  , body := some "Career advice needed. Which framework is better for jobs?".data }

/-- Classification the pipeline produces for `nonJobPost`. -/
def nonJobC : Classification :=
  { post_id := "test456".data, is_job := false, job_type := none, seniority := none
  , domain := none, work_mode := none
  , sentiment_score := compute_sentiment zeroPolarity
      "Should I learn React or Angular?".data
      "Career advice needed. Which framework is better for jobs?".data
  , urgency_score := 0, tech_stack := [] }

/-- Input record lacking the post_id key. -/
def noIdPost : PostIn := { post_id := none, title := some "x".data, body := none }

/-- Input record with a post_id and empty title and body strings. -/
def emptyPost : PostIn := { post_id := some "p".data, title := some [], body := some [] }

/-- Sample post row (values from the repository's tests). -/
def samplePost : Db.PostRow :=
  { post_id := "abc123".data
  , title := "[Hiring] Senior Python Developer - Remote".data
  , body := "We are looking for a senior Python developer...".data
  , author := "test_user".data
  , subreddit := "forhire".data
  , score := 42
  , num_comments := 10
  , created_utc := "2025-01-01T00:00:00+00:00".data
  , post_url := "https://www.reddit.com/r/forhire/comments/abc123".data }

/-- First classification row written for a post. -/
def classRow1 : Db.ClassificationRow :=
  { post_id := "abc123".data, is_job := true, job_type := some "Full-time".data
  , seniority := some "Senior".data, domain := some "Software".data
  , work_mode := some "Remote".data, sentiment_score := 1/2, urgency_score := 3/10 }

/-- Second classification row for the same post with different fields. -/
def classRow2 : Db.ClassificationRow :=
  { post_id := "abc123".data, is_job := false, job_type := none
  , seniority := none, domain := none
  , work_mode := none, sentiment_score := -1/4, urgency_score := 0 }

end Examples

section MatcherLemmas

open Enrichment

theorem pyMaxBySnd_mem (rest : List (Str × Nat)) (s : Str × Nat) :
    pyMaxBySnd s rest ∈ s :: rest := by
  induction rest generalizing s with
  | nil => simp [pyMaxBySnd]
  | cons t ts ih =>
    have h := ih (if s.2 < t.2 then t else s)
    simp only [pyMaxBySnd, List.foldl_cons] at h ⊢
    rcases List.mem_cons.mp h with h' | h'
    · rw [h']
      split <;> simp
    · simp [h']

theorem pyMaxBySnd_ub (rest : List (Str × Nat)) (s : Str × Nat) :
    ∀ q ∈ s :: rest, q.2 ≤ (pyMaxBySnd s rest).2 := by
  induction rest generalizing s with
  | nil => intro q hq; simp at hq; simp [pyMaxBySnd, hq]
  | cons t ts ih =>
    intro q hq
    have hstep : ∀ r ∈ (if s.2 < t.2 then t else s) :: ts,
        r.2 ≤ (pyMaxBySnd s (t :: ts)).2 := by
      simpa only [pyMaxBySnd, List.foldl_cons] using ih (if s.2 < t.2 then t else s)
    rcases List.mem_cons.mp hq with h | h
    · subst h
      have := hstep (if q.2 < t.2 then t else q) (List.mem_cons_self _ _)
      split at this
      · exact le_trans (le_of_lt (by assumption)) this
      · exact this
    · rcases List.mem_cons.mp h with h' | h'
      · subst h'
        have := hstep (if s.2 < q.2 then q else s) (List.mem_cons_self _ _)
        split at this
        · exact this
        · exact le_trans (Nat.not_lt.mp (by assumption)) this
      · exact hstep q (List.mem_cons_of_mem _ h')

theorem pyMaxBySnd_eq_self (rest : List (Str × Nat)) (s : Str × Nat)
    (h : (pyMaxBySnd s rest).2 ≤ s.2) : pyMaxBySnd s rest = s := by
  induction rest generalizing s with
  | nil => rfl
  | cons t ts ih =>
    have hhd : ∀ r ∈ (if s.2 < t.2 then t else s) :: ts,
        r.2 ≤ (pyMaxBySnd s (t :: ts)).2 := by
      simpa only [pyMaxBySnd, List.foldl_cons] using
        pyMaxBySnd_ub ts (if s.2 < t.2 then t else s)
    by_cases hc : s.2 < t.2
    · exfalso
      have ht := hhd (if s.2 < t.2 then t else s) (List.mem_cons_self _ _)
      rw [if_pos hc] at ht
      exact absurd (le_trans ht h) (Nat.not_le.mpr hc)
    · have : pyMaxBySnd s (t :: ts) = pyMaxBySnd s ts := by
        simp only [pyMaxBySnd, List.foldl_cons, if_neg hc]
      rw [this] at h ⊢
      exact ih s h

theorem firstWithVal_pyMax (rest : List (Str × Nat)) (s : Str × Nat) :
    Spec.firstWithVal (pyMaxBySnd s rest).2 (s :: rest) = some (pyMaxBySnd s rest).1 := by
  induction rest generalizing s with
  | nil => simp [Spec.firstWithVal, pyMaxBySnd]
  | cons t ts ih =>
    by_cases hc : s.2 < t.2
    · have hrw : pyMaxBySnd s (t :: ts) = pyMaxBySnd t ts := by
        simp only [pyMaxBySnd, List.foldl_cons, if_pos hc]
      rw [hrw]
      have hub : t.2 ≤ (pyMaxBySnd t ts).2 := pyMaxBySnd_ub ts t t (List.mem_cons_self _ _)
      have hne : s.2 ≠ (pyMaxBySnd t ts).2 :=
        Nat.ne_of_lt (lt_of_lt_of_le hc hub)
      simp only [Spec.firstWithVal, if_neg hne]
      exact ih t
    · have hrw : pyMaxBySnd s (t :: ts) = pyMaxBySnd s ts := by
        simp only [pyMaxBySnd, List.foldl_cons, if_neg hc]
      rw [hrw]
      have hub : s.2 ≤ (pyMaxBySnd s ts).2 := pyMaxBySnd_ub ts s s (List.mem_cons_self _ _)
      by_cases hs : s.2 = (pyMaxBySnd s ts).2
      · have heq : pyMaxBySnd s ts = s := pyMaxBySnd_eq_self ts s (le_of_eq hs.symm)
        simp [Spec.firstWithVal, heq]
      · have hlt : s.2 < (pyMaxBySnd s ts).2 := lt_of_le_of_ne hub hs
        have hnt : t.2 ≠ (pyMaxBySnd s ts).2 :=
          Nat.ne_of_lt (lt_of_le_of_lt (Nat.not_lt.mp hc) hlt)
        have hih := ih s
        simp only [Spec.firstWithVal, if_neg hs] at hih
        simp only [Spec.firstWithVal, if_neg hs, if_neg hnt]
        exact hih

theorem pyMaxBySnd_snd_foldl (rest : List (Str × Nat)) (s : Str × Nat) :
    (pyMaxBySnd s rest).2 = rest.foldl (fun a p => Nat.max a p.2) s.2 := by
  induction rest generalizing s with
  | nil => rfl
  | cons t ts ih =>
    have hrw : pyMaxBySnd s (t :: ts) = pyMaxBySnd (if s.2 < t.2 then t else s) ts := by
      simp only [pyMaxBySnd, List.foldl_cons]
    rw [hrw, ih]
    have : (if s.2 < t.2 then t else s).2 = Nat.max s.2 t.2 := by
      show _ = if s.2 ≤ t.2 then t.2 else s.2
      by_cases hc : s.2 < t.2
      · rw [if_pos hc, if_pos (Nat.le_of_lt hc)]
      · rw [if_neg hc]
        by_cases he : s.2 ≤ t.2
        · rw [if_pos he]; omega
        · rw [if_neg he]
    simp only [List.foldl_cons, this]

end MatcherLemmas

section MatcherClaims

open Enrichment

theorem pyMax_vs_firstWithVal (scored : List (Str × Nat)) :
    (match scored with
     | [] => none
     | s :: rest => some (pyMaxBySnd s rest).1) =
    Spec.firstWithVal ((scored.map (fun p => p.2)).foldl Nat.max 0) scored := by
  cases scored with
  | nil => rfl
  | cons s rest =>
    have hmax : ((s :: rest).map (fun p => p.2)).foldl Nat.max 0 = (pyMaxBySnd s rest).2 := by
      rw [List.foldl_map, pyMaxBySnd_snd_foldl, List.foldl_cons]
      have h0 : Nat.max 0 s.2 = s.2 := by
        show (if 0 ≤ s.2 then s.2 else 0) = s.2
        rw [if_pos (Nat.zero_le _)]
      rw [h0]
    rw [hmax]
    exact (firstWithVal_pyMax rest s).symm

theorem matchPatterns_none_iff (text : Str) (patterns : List (Str × List Str)) :
    matchPatterns text patterns = none ↔
      ∀ p ∈ patterns, hitCount (pyLower text) p.2 = 0 := by
  simp only [matchPatterns]
  rcases hsc : (patterns.map (fun p => (p.1, hitCount (pyLower text) p.2))).filter
      (fun p => 0 < p.2) with _ | ⟨s, rest⟩ <;> rw [hsc]
  · simp only [List.filter_eq_nil_iff] at hsc
    simp only [true_iff]
    intro p hp
    have := hsc _ (List.mem_map_of_mem (fun p => (p.1, hitCount (pyLower text) p.2)) hp)
    simpa using this
  · simp only [reduceCtorEq, false_iff, not_forall]
    have hmem : s ∈ (patterns.map (fun p => (p.1, hitCount (pyLower text) p.2))).filter
        (fun p => 0 < p.2) := by rw [hsc]; exact List.mem_cons_self _ _
    rcases List.mem_filter.mp hmem with ⟨hmap, hpos⟩
    rcases List.mem_map.mp hmap with ⟨p, hp, hep⟩
    refine ⟨p, hp, ?_⟩
    have : 0 < hitCount (pyLower text) p.2 := by
      have h2 := of_decide_eq_true hpos
      rw [← hep] at h2
      exact h2
    omega

theorem matchPatterns_some_max (text : Str) (patterns : List (Str × List Str)) (c : Str)
    (h : matchPatterns text patterns = some c) :
    ∃ kws, (c, kws) ∈ patterns ∧ 0 < hitCount (pyLower text) kws ∧
      ∀ q ∈ patterns, hitCount (pyLower text) q.2 ≤ hitCount (pyLower text) kws := by
  revert h
  simp only [matchPatterns]
  rcases hsc : (patterns.map (fun p => (p.1, hitCount (pyLower text) p.2))).filter
      (fun p => 0 < p.2) with _ | ⟨s, rest⟩ <;> rw [hsc]
  · intro h; exact absurd h (by simp)
  · intro h
    have hbest := pyMaxBySnd_mem rest s
    rw [← hsc] at hbest
    rcases List.mem_filter.mp hbest with ⟨hmap, hpos⟩
    rcases List.mem_map.mp hmap with ⟨p, hp, hep⟩
    have hc : c = p.1 := by
      have := Option.some.inj h
      rw [← this, ← hep]
    refine ⟨p.2, ?_, ?_, ?_⟩
    · rw [hc]; exact hp
    · have := of_decide_eq_true hpos
      rw [← hep] at this
      exact this
    · intro q hq
      have hval : (pyMaxBySnd s rest).2 = hitCount (pyLower text) p.2 := by rw [← hep]
      by_cases hq0 : 0 < hitCount (pyLower text) q.2
      · have hqmem : (q.1, hitCount (pyLower text) q.2) ∈ (patterns.map
            (fun p => (p.1, hitCount (pyLower text) p.2))).filter (fun p => 0 < p.2) := by
          refine List.mem_filter.mpr ⟨List.mem_map_of_mem _ hq, by simpa using hq0⟩
        rw [hsc] at hqmem
        have := pyMaxBySnd_ub rest s _ hqmem
        simpa [hval] using this
      · omega

/-- Claim C3: the category matcher returns none exactly when no trigger
phrase of any category occurs in the lowercased text; otherwise it
returns a category with a positive, maximal hit count; and on the two
named inputs it returns "Full-time" and "Internship" respectively. -/
theorem claim_C3_category_matcher :
    (∀ (text : Str) (patterns : List (Str × List Str)),
      (matchPatterns text patterns = none ↔
        ∀ p ∈ patterns, ∀ kw ∈ p.2, inText kw (pyLower text) = false) ∧
      (∀ c, matchPatterns text patterns = some c →
        ∃ kws, (c, kws) ∈ patterns ∧ 0 < hitCount (pyLower text) kws ∧
          ∀ q ∈ patterns, hitCount (pyLower text) q.2 ≤ hitCount (pyLower text) kws)) ∧
    matchPatterns "Full-time Software Engineer".data JOB_TYPE_PATTERNS =
      some "Full-time".data ∧
    matchPatterns "Summer Internship Program".data JOB_TYPE_PATTERNS =
      some "Internship".data := by
  refine ⟨fun text patterns => ⟨?_, matchPatterns_some_max text patterns⟩, by decide, by decide⟩
  rw [matchPatterns_none_iff]
  constructor
  · intro h p hp kw hkw
    have := h p hp
    rw [hitCount, List.countP_eq_zero] at this
    simpa using this kw hkw
  · intro h p hp
    rw [hitCount, List.countP_eq_zero]
    intro kw hkw
    simp [h p hp kw hkw]

/-- Claim C10: `_match_patterns` coincides, on every text and catalog,
with the function that returns the first-declared category among those
achieving the maximal positive hit count (so ties are broken by catalog
declaration order and the matcher is a deterministic function); on the
tied input "senior lead" (Senior and Lead both score 1) it returns the
first-declared "Senior". -/
theorem claim_C10_tie_break :
    (∀ (text : Str) (patterns : List (Str × List Str)),
      matchPatterns text patterns = Spec.firstMaxCategory text patterns) ∧
    matchPatterns "senior lead".data SENIORITY_PATTERNS = some "Senior".data := by
  refine ⟨fun text patterns => ?_, by decide⟩
  unfold matchPatterns Spec.firstMaxCategory
  exact pyMax_vs_firstWithVal _

end MatcherClaims

section JobGateClaims

open Enrichment

/-- Claim C1, counterexample: on title "" and body "hiring hiring rant"
the code returns false (presence counting: positive 1, negative 1, no
boosts), while the claimed per-occurrence scoring makes the positive
score 2 and the negative score 1, so the claimed equivalence "is_job ↔
occurrence-positive > occurrence-negative" fails at this input. -/
theorem claim_C1_counterexample :
    classify_is_job [] "hiring hiring rant".data = false ∧
    Spec.claimIsJobOcc [] "hiring hiring rant".data = true := by decide

/-- Claim C1 as amended: `classify_is_job` decides positive score
strictly greater than negative score where each configured phrase
PRESENT in the lowercased "title body" contributes exactly 1 to its
side's score (regardless of how many times it occurs), with the +3
title boosts as claimed; and the two named examples hold. -/
theorem claim_C1_job_gate_amended :
    (∀ title body, classify_is_job title body = Spec.claimIsJobPresence title body) ∧
    classify_is_job "[Hiring] Python Developer Needed".data [] = true ∧
    classify_is_job "[For Hire] Developer looking for work".data [] = false := by
  refine ⟨fun title body => ?_, by decide, by decide⟩
  simp only [classify_is_job, Spec.claimIsJobPresence, List.countP_eq_length_filter]

end JobGateClaims

section TechExtractionClaims

open Enrichment

theorem keyUnique {α β : Type _} {l : List (α × β)} (hn : (l.map Prod.fst).Nodup)
    {a : α} {b c : β} (hb : (a, b) ∈ l) (hc : (a, c) ∈ l) : b = c := by
  induction l with
  | nil => cases hb
  | cons x xs ih =>
    rw [List.map_cons, List.nodup_cons] at hn
    rcases List.mem_cons.mp hb with hxb | hb'
    · rcases List.mem_cons.mp hc with hxc | hc'
      · rw [← hxb] at hxc
        exact (congrArg Prod.snd hxc).symm
      · exfalso
        apply hn.1
        have hx1 : x.1 = a := (congrArg Prod.fst hxb).symm
        rw [hx1]
        exact List.mem_map_of_mem Prod.fst hc'
    · rcases List.mem_cons.mp hc with hxc | hc'
      · exfalso
        apply hn.1
        have hx1 : x.1 = a := (congrArg Prod.fst hxc).symm
        rw [hx1]
        exact List.mem_map_of_mem Prod.fst hb'
      · exact ih hn.2 hb' hc'

/-- Claim C5: a technology name is included in `extract_tech_stack`'s
result exactly when one of its trigger phrases occurs in the lowercased
space-padded " title body " (so inclusion of one technology never
excludes another); the result is duplicate-free and lexicographically
sorted; the named example contains React, Node.js and AWS; and the
no-technology example is empty. -/
theorem claim_C5_tech_extraction :
    (∀ title body name kws, (name, kws) ∈ TECH_KEYWORDS →
      (name ∈ extract_tech_stack title body ↔
        kws.any (fun kw => inText kw (pyLower (' ' :: title ++ ' ' :: body ++ [' ']))) = true)) ∧
    (∀ title body, (extract_tech_stack title body).Nodup ∧
      (extract_tech_stack title body).Sorted (· ≤ ·)) ∧
    "React".data ∈
      extract_tech_stack "Full Stack Developer".data "Must know React, Node.js, and AWS".data ∧
    "Node.js".data ∈
      extract_tech_stack "Full Stack Developer".data "Must know React, Node.js, and AWS".data ∧
    "AWS".data ∈
      extract_tech_stack "Full Stack Developer".data "Must know React, Node.js, and AWS".data ∧
    extract_tech_stack "Looking for a manager".data "Leadership role".data = [] := by
  refine ⟨?_, ?_, by decide, by decide, by decide, by decide⟩
  · intro title body name kws hmem
    have hnodup : (TECH_KEYWORDS.map Prod.fst).Nodup := by decide
    simp only [extract_tech_stack, List.mem_insertionSort, List.mem_dedup, List.mem_map,
      List.mem_filter]
    constructor
    · rintro ⟨p, ⟨hp, hP⟩, hp1⟩
      have hpair : (name, p.2) ∈ TECH_KEYWORDS := by
        have : p = (name, p.2) := by
          rw [← hp1]
        rw [← this]
        exact hp
      have : p.2 = kws := keyUnique hnodup hpair hmem
      rw [← this]
      exact hP
    · intro hany
      exact ⟨(name, kws), ⟨hmem, hany⟩, rfl⟩
  · intro title body
    constructor
    · simp only [extract_tech_stack]
      exact ((List.perm_insertionSort _ _).nodup_iff).mpr (List.nodup_dedup _)
    · simp only [extract_tech_stack]
      exact List.sorted_insertionSort _ _

end TechExtractionClaims

section UrgencyClaims

open Enrichment

theorem maxQ_one_pos (a : ℚ) : 0 < maxQ a 1 := by
  rw [maxQ]
  split
  · norm_num
  · linarith [not_le.mp (by assumption : ¬ a ≤ 1)]

theorem minQ_one_mem {x : ℚ} (hx : 0 ≤ x) : 0 ≤ minQ x 1 ∧ minQ x 1 ≤ 1 := by
  rw [minQ]
  split
  · exact ⟨hx, by assumption⟩
  · norm_num

theorem roundHalfEven_eq (q : ℚ) :
    roundHalfEven q =
      if q - ⌊q⌋ < 1/2 then ⌊q⌋
      else if (1:ℚ)/2 < q - ⌊q⌋ then ⌊q⌋ + 1
      else if ⌊q⌋ % 2 = 0 then ⌊q⌋ else ⌊q⌋ + 1 := rfl

theorem round3_bounds {q : ℚ} (h0 : 0 ≤ q) (h1 : q ≤ 1) :
    0 ≤ round3 q ∧ round3 q ≤ 1 := by
  have hr0 : (0:ℚ) ≤ q * 1000 := by nlinarith
  have hr1 : q * 1000 ≤ 1000 := by nlinarith
  have hf0 : 0 ≤ ⌊q * 1000⌋ := Int.floor_nonneg.mpr hr0
  have hf1 : ⌊q * 1000⌋ ≤ 1000 := by
    have h := Int.floor_mono hr1
    rwa [show ((1000:ℚ)) = ((1000:ℕ):ℚ) by norm_num, Int.floor_natCast] at h
  have hkey : 0 ≤ roundHalfEven (q * 1000) ∧ roundHalfEven (q * 1000) ≤ 1000 := by
    rw [roundHalfEven_eq]
    by_cases hb1 : q * 1000 - ⌊q * 1000⌋ < 1/2
    · rw [if_pos hb1]; exact ⟨hf0, hf1⟩
    · have hhalf : (1:ℚ)/2 ≤ q * 1000 - ⌊q * 1000⌋ := not_lt.mp hb1
      have hflt : ⌊q * 1000⌋ < 1000 := by
        have hcast : (⌊q * 1000⌋ : ℚ) < 1000 := by linarith
        exact_mod_cast hcast
      rw [if_neg hb1]
      split
      · constructor <;> omega
      · split
        · exact ⟨hf0, hf1⟩
        · constructor <;> omega
  rw [round3]
  constructor
  · apply div_nonneg _ (by norm_num : (0:ℚ) ≤ 1000)
    exact_mod_cast hkey.1
  · rw [div_le_one (by norm_num : (0:ℚ) < 1000)]
    exact_mod_cast hkey.2

theorem round3_zero : round3 0 = 0 := by
  have h0 : ⌊(0 * 1000 : ℚ)⌋ = 0 := by norm_num
  rw [round3, roundHalfEven_eq, h0]
  norm_num

theorem round3_one : round3 1 = 1 := by
  have h1000 : ⌊(1 * 1000 : ℚ)⌋ = 1000 := by norm_num
  rw [round3, roundHalfEven_eq, h1000]
  norm_num

/-- Claim C4: `compute_urgency` equals the claimed formula
round(min(m / max(0.3·N, 1), 1), 3) with m the number of distinct
configured urgency phrases present; its value always lies in [0, 1];
it is 0 when no urgency phrase occurs; and it saturates at 1 whenever
the phrases present cover at least 30 percent of the urgency
vocabulary. -/
theorem claim_C4_urgency :
    (∀ title body, compute_urgency title body = Spec.claimUrgency title body) ∧
    (∀ title body, 0 ≤ compute_urgency title body ∧ compute_urgency title body ≤ 1) ∧
    (∀ title body,
      (∀ pat ∈ URGENCY_PATTERNS, inText pat (pyLower (title ++ ' ' :: body)) = false) →
      compute_urgency title body = 0) ∧
    (∀ title body,
      URGENCY_PATTERNS.length * 3 ≤
        (URGENCY_PATTERNS.countP (fun p => inText p (pyLower (title ++ ' ' :: body)))) * 10 →
      compute_urgency title body = 1) := by
  refine ⟨?_, ?_, ?_, ?_⟩
  · intro title body
    simp only [compute_urgency, Spec.claimUrgency, List.countP_eq_length_filter]
    rw [mul_comm ((URGENCY_PATTERNS.length : ℚ)) (3/10)]
  · intro title body
    simp only [compute_urgency]
    have hx : 0 ≤ ((URGENCY_PATTERNS.countP
          (fun p => inText p (pyLower (title ++ ' ' :: body)))) : ℚ) /
        maxQ ((URGENCY_PATTERNS.length : ℚ) * (3/10)) 1 :=
      div_nonneg (Nat.cast_nonneg _) (le_of_lt (maxQ_one_pos _))
    have h01 := minQ_one_mem hx
    exact round3_bounds h01.1 h01.2
  · intro title body hall
    have hm : URGENCY_PATTERNS.countP
        (fun p => inText p (pyLower (title ++ ' ' :: body))) = 0 := by
      rw [List.countP_eq_zero]
      intro pat hp
      simp [hall pat hp]
    simp only [compute_urgency, hm, Nat.cast_zero, zero_div]
    have hmin : minQ 0 1 = 0 := by rw [minQ, if_pos (by norm_num : (0:ℚ) ≤ 1)]
    rw [hmin, round3_zero]
  · intro title body hsat
    have hlen : URGENCY_PATTERNS.length = 16 := rfl
    rw [hlen] at hsat
    simp only [compute_urgency]
    have hm5 : 5 ≤ URGENCY_PATTERNS.countP
        (fun p => inText p (pyLower (title ++ ' ' :: body))) := by omega
    have hmax : maxQ ((URGENCY_PATTERNS.length : ℚ) * (3/10)) 1 = 24/5 := by
      rw [hlen]
      rw [maxQ, if_neg (by norm_num : ¬ ((16:ℕ):ℚ) * (3/10) ≤ 1)]
      norm_num
    rw [hmax]
    have hgt : (1:ℚ) < ((URGENCY_PATTERNS.countP
        (fun p => inText p (pyLower (title ++ ' ' :: body)))) : ℚ) / (24/5) := by
      rw [lt_div_iff₀ (by norm_num : (0:ℚ) < 24/5)]
      have h5 : (5:ℚ) ≤ ((URGENCY_PATTERNS.countP
          (fun p => inText p (pyLower (title ++ ' ' :: body)))) : ℚ) := by
        exact_mod_cast hm5
      linarith
    have hmin : minQ (((URGENCY_PATTERNS.countP
        (fun p => inText p (pyLower (title ++ ' ' :: body)))) : ℚ) / (24/5)) 1 = 1 := by
      rw [minQ, if_neg (not_le.mpr hgt)]
    rw [hmin, round3_one]

end UrgencyClaims

section EnrichmentClaims

open Enrichment

theorem enrich_post_some (polarity : Str → ℚ) (p : PostIn) (pid : Str)
    (hp : p.post_id = some pid) :
    enrich_post polarity p = Except.ok
      { post_id := pid
      , is_job := classify_is_job (p.title.getD []) (p.body.getD [])
      , job_type := if classify_is_job (p.title.getD []) (p.body.getD []) then
          classify_job_type (p.title.getD []) (p.body.getD []) else none
      , seniority := if classify_is_job (p.title.getD []) (p.body.getD []) then
          classify_seniority (p.title.getD []) (p.body.getD []) else none
      , domain := if classify_is_job (p.title.getD []) (p.body.getD []) then
          classify_domain (p.title.getD []) (p.body.getD []) else none
      , work_mode := if classify_is_job (p.title.getD []) (p.body.getD []) then
          classify_work_mode (p.title.getD []) (p.body.getD []) else none
      , sentiment_score := compute_sentiment polarity (p.title.getD []) (p.body.getD [])
      , urgency_score := if classify_is_job (p.title.getD []) (p.body.getD []) then
          compute_urgency (p.title.getD []) (p.body.getD []) else 0
      , tech_stack := if classify_is_job (p.title.getD []) (p.body.getD []) then
          extract_tech_stack (p.title.getD []) (p.body.getD []) else [] } := by
  simp [enrich_post, hp]

/-- Claim C2: whenever the job gate rejects a post, the classification
returned by `enrich_post` has all four taxonomy fields none, urgency
0.0 and an empty tech stack, while the sentiment score is still the
sentiment scorer applied to the same title and body (as it also is
when the gate accepts). -/
theorem claim_C2_gate_short_circuit :
    ∀ (polarity : Str → ℚ) (p : PostIn) (c : Classification),
    enrich_post polarity p = Except.ok c →
    (c.is_job = false →
      c.job_type = none ∧ c.seniority = none ∧ c.domain = none ∧
      c.work_mode = none ∧ c.urgency_score = 0 ∧ c.tech_stack = []) ∧
    c.sentiment_score = compute_sentiment polarity (p.title.getD []) (p.body.getD []) := by
  intro polarity p c h
  rcases hp : p.post_id with _ | pid
  · simp [enrich_post, hp] at h
  · rw [enrich_post_some polarity p pid hp] at h
    have hc := Except.ok.inj h
    subst hc
    refine ⟨?_, rfl⟩
    intro hj
    have hj' : classify_is_job (p.title.getD []) (p.body.getD []) = false := hj
    simp [hj']

/-- Claim C9: `enrich_post` propagates an error naming the missing
field exactly when the record lacks a post_id; with a post_id present
it returns a complete classification for any title and body, and for
empty title and body that classification has is_job false, urgency 0.0
and no technology tags. -/
theorem claim_C9_error_handling :
    ∀ (polarity : Str → ℚ) (p : PostIn),
    ((∃ e, enrich_post polarity p = Except.error e ∧ e = "post_id".data) ↔
      p.post_id = none) ∧
    (∀ pid, p.post_id = some pid →
      ∃ c, enrich_post polarity p = Except.ok c ∧ c.post_id = pid) ∧
    (p.title = some [] → p.body = some [] → ∀ pid, p.post_id = some pid →
      ∃ c, enrich_post polarity p = Except.ok c ∧ c.is_job = false ∧
        c.urgency_score = 0 ∧ c.tech_stack = []) := by
  intro polarity p
  refine ⟨⟨?_, ?_⟩, ?_, ?_⟩
  · rintro ⟨e, he, rfl⟩
    rcases hp : p.post_id with _ | pid
    · rfl
    · rw [enrich_post_some polarity p pid hp] at he
      cases he
  · intro hp
    exact ⟨"post_id".data, by simp [enrich_post, hp], rfl⟩
  · intro pid hp
    exact ⟨_, enrich_post_some polarity p pid hp, rfl⟩
  · intro ht hb pid hp
    have h := enrich_post_some polarity p pid hp
    rw [ht, hb] at h
    have hfalse : classify_is_job ((some ([]:Str)).getD []) ((some ([]:Str)).getD [])
        = false := by decide
    refine ⟨_, h, hfalse, ?_, ?_⟩
    · show (if classify_is_job ((some ([]:Str)).getD []) ((some ([]:Str)).getD []) then
        compute_urgency ((some ([]:Str)).getD []) ((some ([]:Str)).getD []) else 0) = 0
      rw [hfalse]
      rfl
    · show (if classify_is_job ((some ([]:Str)).getD []) ((some ([]:Str)).getD []) then
        extract_tech_stack ((some ([]:Str)).getD []) ((some ([]:Str)).getD []) else []) = []
      rw [hfalse]
      rfl

end EnrichmentClaims

section DbClaims

open Db

theorem filter_pid_eq_nil (rs : List ClassificationRow) (pid : Str)
    (h : pid ∉ rs.map ClassificationRow.post_id) :
    rs.filter (fun r => decide (r.post_id = pid)) = [] := by
  rw [List.filter_eq_nil_iff]
  intro r hr
  simp only [decide_eq_true_eq]
  intro he
  exact h (he ▸ List.mem_map_of_mem ClassificationRow.post_id hr)

theorem insert_classification_filter (tbl : List ClassificationRow)
    (c : ClassificationRow) (hn : (tbl.map ClassificationRow.post_id).Nodup) :
    (insert_classification tbl c).filter (fun r => decide (r.post_id = c.post_id)) = [c] := by
  induction tbl with
  | nil => simp [insert_classification]
  | cons r rs ih =>
    rw [List.map_cons, List.nodup_cons] at hn
    by_cases heq : r.post_id = c.post_id
    · rw [insert_classification, if_pos heq]
      rw [List.filter_cons_of_pos (by simp)]
      rw [filter_pid_eq_nil rs c.post_id (heq ▸ hn.1)]
    · rw [insert_classification, if_neg heq]
      rw [List.filter_cons_of_neg (by simpa using heq)]
      exact ih hn.2

theorem insert_classification_keys (tbl : List ClassificationRow) (c : ClassificationRow) :
    ∀ x ∈ (insert_classification tbl c).map ClassificationRow.post_id,
      x = c.post_id ∨ x ∈ tbl.map ClassificationRow.post_id := by
  induction tbl with
  | nil => simp [insert_classification]
  | cons r rs ih =>
    intro x hx
    by_cases heq : r.post_id = c.post_id
    · rw [insert_classification, if_pos heq, List.map_cons] at hx
      rcases List.mem_cons.mp hx with h | h
      · exact Or.inl h
      · exact Or.inr (by rw [List.map_cons]; exact List.mem_cons_of_mem _ h)
    · rw [insert_classification, if_neg heq, List.map_cons] at hx
      rcases List.mem_cons.mp hx with h | h
      · exact Or.inr (by rw [List.map_cons]; exact h ▸ List.mem_cons_self _ _)
      · rcases ih x h with h' | h'
        · exact Or.inl h'
        · exact Or.inr (by rw [List.map_cons]; exact List.mem_cons_of_mem _ h')

theorem insert_classification_nodup (tbl : List ClassificationRow)
    (c : ClassificationRow) (hn : (tbl.map ClassificationRow.post_id).Nodup) :
    ((insert_classification tbl c).map ClassificationRow.post_id).Nodup := by
  induction tbl with
  | nil => simp [insert_classification]
  | cons r rs ih =>
    rw [List.map_cons, List.nodup_cons] at hn
    by_cases heq : r.post_id = c.post_id
    · rw [insert_classification, if_pos heq, List.map_cons, List.nodup_cons]
      exact ⟨heq ▸ hn.1, hn.2⟩
    · rw [insert_classification, if_neg heq, List.map_cons, List.nodup_cons]
      refine ⟨?_, ih hn.2⟩
      intro hmem
      rcases insert_classification_keys rs c r.post_id hmem with h | h
      · exact heq h
      · exact hn.1 h

/-- Claim C6: after `insert_classification` the table holds exactly one
row for the given post_id, equal to the record just written (full
replacement, no field merge), key uniqueness is preserved, and two
upserts for the same post_id leave exactly the row of the second
call. -/
theorem claim_C6_classification_upsert :
    (∀ (tbl : List ClassificationRow) (c : ClassificationRow),
      (tbl.map ClassificationRow.post_id).Nodup →
      (insert_classification tbl c).filter (fun r => decide (r.post_id = c.post_id)) = [c] ∧
      ((insert_classification tbl c).map ClassificationRow.post_id).Nodup) ∧
    (∀ (tbl : List ClassificationRow) (c1 c2 : ClassificationRow),
      c1.post_id = c2.post_id →
      (tbl.map ClassificationRow.post_id).Nodup →
      (insert_classification (insert_classification tbl c1) c2).filter
        (fun r => decide (r.post_id = c2.post_id)) = [c2]) := by
  constructor
  · intro tbl c hn
    exact ⟨insert_classification_filter tbl c hn, insert_classification_nodup tbl c hn⟩
  · intro tbl c1 c2 _ hn
    exact insert_classification_filter _ c2 (insert_classification_nodup tbl c1 hn)

/-- Claim C7: `insert_post` returns true and appends the row when the
post_id is new, returns false and leaves the table unchanged when the
post_id already exists; in particular inserting the same post twice
returns true then false with the stored rows unchanged by the second
call. -/
theorem claim_C7_insert_post :
    ∀ (tbl : List PostRow) (p : PostRow),
      ((insert_post tbl p).2 = true ↔ p.post_id ∉ tbl.map PostRow.post_id) ∧
      (p.post_id ∈ tbl.map PostRow.post_id → insert_post tbl p = (tbl, false)) ∧
      (p.post_id ∉ tbl.map PostRow.post_id →
        insert_post tbl p = (tbl ++ [p], true) ∧
        insert_post (tbl ++ [p]) p = (tbl ++ [p], false)) := by
  intro tbl p
  refine ⟨?_, ?_, ?_⟩
  · by_cases hmem : p.post_id ∈ tbl.map PostRow.post_id
    · rw [insert_post, if_pos hmem]
      simpa using hmem
    · rw [insert_post, if_neg hmem]
      simpa using hmem
  · intro hmem
    rw [insert_post, if_pos hmem]
  · intro hmem
    constructor
    · rw [insert_post, if_neg hmem]
    · have hmem2 : p.post_id ∈ (tbl ++ [p]).map PostRow.post_id := by
        rw [List.map_append]
        exact List.mem_append_right _ (by simp)
      rw [insert_post, if_pos hmem2]

theorem insert_tech_stack_cons (tbl : List (Str × Str)) (pid : Str) (t : Str)
    (ts : List Str) :
    insert_tech_stack tbl pid (t :: ts) =
      insert_tech_stack (if (pid, t) ∈ tbl then tbl else tbl ++ [(pid, t)]) pid ts := rfl

theorem insert_tech_stack_mem (techs : List Str) (tbl : List (Str × Str)) (pid : Str)
    (x : Str × Str) :
    x ∈ insert_tech_stack tbl pid techs ↔ x ∈ tbl ∨ (x.1 = pid ∧ x.2 ∈ techs) := by
  induction techs generalizing tbl with
  | nil => simp [insert_tech_stack]
  | cons t ts ih =>
    rw [insert_tech_stack_cons, ih]
    by_cases hmem : (pid, t) ∈ tbl
    · rw [if_pos hmem]
      constructor
      · rintro (hx | ⟨h1, h2⟩)
        · exact Or.inl hx
        · exact Or.inr ⟨h1, List.mem_cons_of_mem _ h2⟩
      · rintro (hx | ⟨h1, h2⟩)
        · exact Or.inl hx
        · rcases List.mem_cons.mp h2 with h2' | h2'
          · have hx : x = (pid, t) := by
              cases x
              simp only [Prod.mk.injEq]
              exact ⟨h1, h2'⟩
            exact Or.inl (hx ▸ hmem)
          · exact Or.inr ⟨h1, h2'⟩
    · rw [if_neg hmem]
      constructor
      · rintro (hx | ⟨h1, h2⟩)
        · rcases List.mem_append.mp hx with h | h
          · exact Or.inl h
          · have : x = (pid, t) := by simpa using h
            exact Or.inr ⟨by rw [this], by rw [this]; exact List.mem_cons_self _ _⟩
        · exact Or.inr ⟨h1, List.mem_cons_of_mem _ h2⟩
      · rintro (hx | ⟨h1, h2⟩)
        · exact Or.inl (List.mem_append_left _ hx)
        · rcases List.mem_cons.mp h2 with h2' | h2'
          · have hx : x = (pid, t) := by
              cases x
              simp only [Prod.mk.injEq]
              exact ⟨h1, h2'⟩
            exact Or.inl (List.mem_append_right _ (by simp [hx]))
          · exact Or.inr ⟨h1, h2'⟩

theorem insert_tech_stack_nodup (techs : List Str) (tbl : List (Str × Str)) (pid : Str)
    (hn : tbl.Nodup) : (insert_tech_stack tbl pid techs).Nodup := by
  induction techs generalizing tbl with
  | nil => exact hn
  | cons t ts ih =>
    rw [insert_tech_stack_cons]
    apply ih
    by_cases hmem : (pid, t) ∈ tbl
    · rw [if_pos hmem]; exact hn
    · rw [if_neg hmem]
      refine List.Nodup.append hn (List.nodup_singleton _) ?_
      intro a ha hb
      rw [List.mem_singleton] at hb
      exact hmem (hb ▸ ha)

/-- Claim C8: after any sequence of `insert_tech_stack` calls starting
from a duplicate-free tag table, the table stays duplicate-free (each
(post_id, technology) pair occurs at most once), existing pairs are
never removed, a pair is present exactly when it was present before or
was in the given list for that post_id; and the named two-call example
leaves exactly the two rows (p1, Python) and (p1, AWS). -/
theorem claim_C8_tech_tag_uniqueness :
    (∀ (tbl : List (Str × Str)) (pid : Str) (techs : List Str),
      tbl.Nodup →
      (insert_tech_stack tbl pid techs).Nodup ∧
      (∀ x, x ∈ insert_tech_stack tbl pid techs ↔
        x ∈ tbl ∨ (x.1 = pid ∧ x.2 ∈ techs))) ∧
    insert_tech_stack (insert_tech_stack [] "p1".data
        ["Python".data, "Python".data, "AWS".data]) "p1".data ["Python".data] =
      [("p1".data, "Python".data), ("p1".data, "AWS".data)] := by
  refine ⟨?_, by decide⟩
  intro tbl pid techs hn
  exact ⟨insert_tech_stack_nodup techs tbl pid hn,
    fun x => insert_tech_stack_mem techs tbl pid x⟩

end DbClaims

section Witnesses

open Enrichment Db

/-- Witness for C3 at the concrete matcher scenario: instantiates the
maximality statement for "Full-time" on "Full-time Software Engineer". -/
theorem claim_C3_witness :
    ∃ kws, ("Full-time".data, kws) ∈ JOB_TYPE_PATTERNS ∧
      0 < hitCount (pyLower "Full-time Software Engineer".data) kws ∧
      ∀ q ∈ JOB_TYPE_PATTERNS,
        hitCount (pyLower "Full-time Software Engineer".data) q.2 ≤
        hitCount (pyLower "Full-time Software Engineer".data) kws :=
  (claim_C3_category_matcher.1 "Full-time Software Engineer".data JOB_TYPE_PATTERNS).2
    "Full-time".data (by decide)

/-- Witness for C4: a concrete phrase-free text scores 0 and a concrete
text covering 5 of the 16 urgency phrases (over 30 percent) scores 1. -/
theorem claim_C4_witness :
    compute_urgency "Open position".data "We are hiring for our team".data = 0 ∧
    compute_urgency "urgent asap deadline start now today".data [] = 1 :=
  ⟨claim_C4_urgency.2.2.1 "Open position".data "We are hiring for our team".data (by decide),
   claim_C4_urgency.2.2.2 "urgent asap deadline start now today".data [] (by decide)⟩

/-- Witness for C5: instantiates the inclusion criterion for "React" on
the concrete extraction scenario. -/
theorem claim_C5_witness :
    ("React".data ∈ extract_tech_stack "Full Stack Developer".data
      "Must know React, Node.js, and AWS".data ↔
    (["react".data, "reactjs".data, "react.js".data]).any
      (fun kw => inText kw (pyLower (' ' :: "Full Stack Developer".data ++ ' ' ::
        "Must know React, Node.js, and AWS".data ++ [' ']))) = true) :=
  claim_C5_tech_extraction.1 "Full Stack Developer".data
    "Must know React, Node.js, and AWS".data "React".data
    ["react".data, "reactjs".data, "react.js".data] (by decide)

/-- Witness for C2: on the concrete non-job post the returned
classification has empty taxonomy fields, zero urgency, no tags, and
the sentiment of the same title and body. -/
theorem claim_C2_witness :
    Examples.nonJobC.job_type = none ∧ Examples.nonJobC.seniority = none ∧
    Examples.nonJobC.domain = none ∧ Examples.nonJobC.work_mode = none ∧
    Examples.nonJobC.urgency_score = 0 ∧ Examples.nonJobC.tech_stack = [] ∧
    Examples.nonJobC.sentiment_score =
      compute_sentiment Examples.zeroPolarity (Examples.nonJobPost.title.getD [])
        (Examples.nonJobPost.body.getD []) := by
  have h := claim_C2_gate_short_circuit Examples.zeroPolarity Examples.nonJobPost
    Examples.nonJobC (by rfl)
  have h2 := h.1 (by rfl)
  exact ⟨h2.1, h2.2.1, h2.2.2.1, h2.2.2.2.1, h2.2.2.2.2.1, h2.2.2.2.2.2, h.2⟩

/-- Witness for C9: the record lacking a post_id errors with the field
name, and the record with empty title and body classifies as not a job
with zero urgency and no tags. -/
theorem claim_C9_witness :
    (∃ e, enrich_post Examples.zeroPolarity Examples.noIdPost = Except.error e ∧
      e = "post_id".data) ∧
    (∃ c, enrich_post Examples.zeroPolarity Examples.emptyPost = Except.ok c ∧
      c.is_job = false ∧ c.urgency_score = 0 ∧ c.tech_stack = []) :=
  ⟨(claim_C9_error_handling Examples.zeroPolarity Examples.noIdPost).1.mpr rfl,
   (claim_C9_error_handling Examples.zeroPolarity Examples.emptyPost).2.2 rfl rfl
     "p".data rfl⟩

/-- Witness for C6: two upserts for the same post_id on the empty table
leave exactly the second row. -/
theorem claim_C6_witness :
    (insert_classification (insert_classification [] Examples.classRow1)
        Examples.classRow2).filter
      (fun r => decide (r.post_id = Examples.classRow2.post_id)) = [Examples.classRow2] :=
  claim_C6_classification_upsert.2 [] Examples.classRow1 Examples.classRow2
    (by decide) (by decide)

/-- Witness for C7: inserting the sample post twice into the empty table
returns true then false and leaves exactly one stored row. -/
theorem claim_C7_witness :
    insert_post [] Examples.samplePost = ([Examples.samplePost], true) ∧
    insert_post [Examples.samplePost] Examples.samplePost =
      ([Examples.samplePost], false) := by
  have h := (claim_C7_insert_post [] Examples.samplePost).2.2 (by decide)
  exact ⟨by simpa using h.1, by simpa using h.2⟩

/-- Witness for C8: uniqueness and the membership criterion instantiated
on the concrete two-call scenario starting from the empty table. -/
theorem claim_C8_witness :
    (insert_tech_stack [] "p1".data
      ["Python".data, "Python".data, "AWS".data]).Nodup ∧
    (("p1".data, "AWS".data) ∈ insert_tech_stack [] "p1".data
        ["Python".data, "Python".data, "AWS".data] ↔
      ("p1".data, "AWS".data) ∈ ([] : List (Str × Str)) ∨
      (("p1".data, "AWS".data).1 = "p1".data ∧
        ("p1".data, "AWS".data).2 ∈ ["Python".data, "Python".data, "AWS".data])) := by
  have h := claim_C8_tech_tag_uniqueness.1 [] "p1".data
    ["Python".data, "Python".data, "AWS".data] (by decide)
  exact ⟨h.1, h.2 _⟩

end Witnesses
